import Mathlib

/-!
Verification of `scripts/sheet_monitor.py` (Google-Sheet-to-issue-tracker monitor).

The script is a single linear pass: initialize the sheets client, load a JSON
state file holding the previously processed identifiers, fetch column `A:A`
from the sheet, reconcile each fetched identifier against the persisted set
and the remote tracker, and write the updated set back.

The embedding below models each helper of the `SheetMonitor` class as a pure
function of the responses the outside world would return, and `SheetMonitor.run`
as a fold over the fetched identifiers.  Remote behaviour is an oracle carried
in `RunEnv`: `none` models a raised transport exception, `some` carries the
HTTP status (and payload) of the response.
-/

namespace SheetMonitor

/-- Python `sub in s` on strings: `sub` occurs in `s` as a contiguous substring. -/
def occursIn (sub s : String) : Bool :=
  decide (sub.data <:+: s.data)

/-- Python `s.strip()`: drop whitespace from both ends of the string. -/
def pyStrip (s : String) : String :=
  ⟨(((s.data.dropWhile Char.isWhitespace).reverse.dropWhile Char.isWhitespace).reverse)⟩

/-- `_load_state` followed by `state.get('processed_paper_ids', [])`:
a missing or unreadable state file (or a file without the key) yields `[]`,
otherwise the stored list of identifiers.  `none` models every failure path. -/
def load_state (file : Option (List String)) : List String :=
  match file with
  | none => []
  | some ids => ids

/-- `_get_sheet_data`'s extraction loop over `values[1:]`: each row contributes
`row[0].strip()` when the row is non-empty and that trimmed cell is non-empty. -/
def extract_ids : List (List String) → List String
  | [] => []
  | row :: rest =>
    match row with
    | [] => extract_ids rest
    | cell :: _ =>
      if pyStrip cell ≠ "" then pyStrip cell :: extract_ids rest
      else extract_ids rest

/-- `_get_sheet_data`: `none` models an `HttpError` from the values API
(caught, logged, `[]` returned); `some values` is the returned column.
An empty `values` short-circuits to `[]`; otherwise the header row is dropped
and the remaining rows are filtered by `extract_ids`. -/
def get_sheet_data (resp : Option (List (List String))) : List String :=
  match resp with
  | none => []
  | some values =>
    if values = [] then []
    else extract_ids (values.drop 1)

/-- `_check_existing_issues`: `none` models a raised exception (caught,
`False` returned); `some (status, titles)` is the list response.  Only a 200
status inspects the payload, declaring "exists" when some returned issue title
contains the identifier as a substring. -/
def check_existing_issues (resp : Option (Nat × List String)) (paper_id : String) : Bool :=
  match resp with
  | none => false
  | some (status, titles) =>
    if status = 200 then titles.any (fun t => occursIn paper_id t)
    else false

/-- `_create_github_issue`: `none` models a raised exception (caught, `False`
returned); `some status` is the POST status.  Success is exactly status 201. -/
def create_github_issue (resp : Option Nat) : Bool :=
  match resp with
  | none => false
  | some status => status == 201

/-- Python `set.add` on a set represented as a duplicate-free list:
adding a member is a no-op, otherwise the element is appended. -/
def setAdd (s : List String) (x : String) : List String :=
  if x ∈ s then s else s ++ [x]

/-- Python `set(l)`: deduplicate a list, modelling `set(state.get(...))`. -/
def pySet (l : List String) : List String := l.foldl setAdd []

/-- Console output of one run, abstracted to the events the script prints. -/
inductive LogEvent where
  | startBanner
  | initFailed
  | noPaperIds
  | foundCount (n : Nat)
  | issueExists (paper_id : String)
  | createdIssue (paper_id : String)
  | createFailed (paper_id : String)
  | completeSummary (created : Nat)
  deriving DecidableEq, Repr

/-- The outside world as one run of `SheetMonitor.run` observes it. -/
structure RunEnv where
  serviceOk : Bool
  loadedIds : Option (List String)
  sheetResp : Option (List (List String))
  checkResp : String → Option (Nat × List String)
  createResp : String → Option Nat

/-- In-memory state of the reconciliation loop, plus a trace of the remote
calls it has issued and the lines it has printed. -/
structure LoopState where
  seen : List String
  created : Nat
  checkCalls : List String
  createCalls : List String
  log : List LogEvent
  deriving DecidableEq, Repr

/-- One iteration of the `for paper_id in current_paper_ids` loop:
skip identifiers already in `processed_ids`; otherwise check the tracker,
and either mark seen (existing issue) or attempt creation, marking seen and
counting only on a 201. -/
def reconStep (env : RunEnv) (st : LoopState) (paper_id : String) : LoopState :=
  if paper_id ∈ st.seen then st
  else if check_existing_issues (env.checkResp paper_id) paper_id then
    { st with
        seen := setAdd st.seen paper_id
        checkCalls := st.checkCalls ++ [paper_id]
        log := st.log ++ [LogEvent.issueExists paper_id] }
  else if create_github_issue (env.createResp paper_id) then
    { st with
        seen := setAdd st.seen paper_id
        created := st.created + 1
        checkCalls := st.checkCalls ++ [paper_id]
        createCalls := st.createCalls ++ [paper_id]
        log := st.log ++ [LogEvent.createdIssue paper_id] }
  else
    { st with
        checkCalls := st.checkCalls ++ [paper_id]
        createCalls := st.createCalls ++ [paper_id]
        log := st.log ++ [LogEvent.createFailed paper_id] }

/-- Observable outcome of one run: the list written to the state file
(`none` when the run returned before `_save_state`), the created count,
the remote calls issued, and the console log. -/
structure RunResult where
  savedIds : Option (List String)
  createdCount : Nat
  checkCalls : List String
  createCalls : List String
  log : List LogEvent
  deriving DecidableEq, Repr

/-- `SheetMonitor.run`: abort when the sheets service failed to initialize;
load state, fetch the sheet, abort when no identifiers were fetched;
otherwise reconcile every fetched identifier in order and save the set. -/
def run (env : RunEnv) : RunResult :=
  if env.serviceOk = true then
    let seen0 := pySet (load_state env.loadedIds)
    let ids := get_sheet_data env.sheetResp
    if ids = [] then
      { savedIds := none, createdCount := 0, checkCalls := [], createCalls := [],
        log := [LogEvent.startBanner, LogEvent.noPaperIds] }
    else
      let fin := ids.foldl (reconStep env)
        { seen := seen0, created := 0, checkCalls := [], createCalls := [],
          log := [LogEvent.startBanner, LogEvent.foundCount ids.length] }
      { savedIds := some fin.seen, createdCount := fin.created,
        checkCalls := fin.checkCalls, createCalls := fin.createCalls,
        log := fin.log ++ [LogEvent.completeSummary fin.created] }
  else
    { savedIds := none, createdCount := 0, checkCalls := [], createCalls := [],
      log := [LogEvent.startBanner, LogEvent.initFailed] }

/-- The loop state `run` starts its fold from on the full path. -/
def initState (env : RunEnv) : LoopState :=
  { seen := pySet (load_state env.loadedIds), created := 0,
    checkCalls := [], createCalls := [],
    log := [LogEvent.startBanner, LogEvent.foundCount (get_sheet_data env.sheetResp).length] }

/-- The loop state after `run` has folded over every fetched identifier. -/
def finState (env : RunEnv) : LoopState :=
  (get_sheet_data env.sheetResp).foldl (reconStep env) (initState env)

/-- Written from the spec's words for the fetch step: "The first row is
unconditionally skipped (assumed header). Each subsequent row contributes its
first cell, trimmed, only if non-empty after trimming. Order is preserved." -/
def fetchSpec (values : List (List String)) : List String :=
  (values.drop 1).filterMap (fun row =>
    match row with
    | [] => none
    | cell :: _ => if pyStrip cell ≠ "" then some (pyStrip cell) else none)

/-- The spec's run summary: some found count and some created count was logged. -/
def summaryLogged (r : RunResult) : Prop :=
  (∃ n, LogEvent.foundCount n ∈ r.log) ∧ (∃ c, LogEvent.completeSummary c ∈ r.log)

/-- Sample world: one unseen identifier whose create returns HTTP 500. -/
def envCreateFail : RunEnv :=
  { serviceOk := true
    loadedIds := some []
    sheetResp := some [["header"], ["X"]]
    checkResp := fun _ => some (200, [])
    createResp := fun _ => some 500 }

/-- Sample world: one unseen identifier whose create returns HTTP 201. -/
def envRetry : RunEnv :=
  { serviceOk := true
    loadedIds := some []
    sheetResp := some [["header"], ["X"]]
    checkResp := fun _ => some (200, [])
    createResp := fun _ => some 201 }

/-- Sample world: empty loaded state, two fresh identifiers, all creates 201. -/
def envFirstRun : RunEnv :=
  { serviceOk := true
    loadedIds := some []
    sheetResp := some [["id"], ["A1"], ["A2"]]
    checkResp := fun _ => some (200, [])
    createResp := fun _ => some 201 }

/-- Sample world: the run after `envFirstRun`, loading the state it saved. -/
def envSecondRun : RunEnv :=
  { envFirstRun with loadedIds := some ["A1", "A2"] }

/-- Sample world: the sheets client failed to initialize. -/
def envInitFail : RunEnv :=
  { envFirstRun with serviceOk := false }

/-- Sample world: the sheet fetch raises an `HttpError`. -/
def envFetchFail : RunEnv :=
  { envFirstRun with loadedIds := some ["A1"], sheetResp := none }

/-- Sample world: a pre-loaded identifier plus one fresh one in the sheet. -/
def envLoaded : RunEnv :=
  { envFirstRun with loadedIds := some ["B0"], sheetResp := some [["id"], ["A1"]] }

/-- Sample world: duplicates both in the loaded state and in the sheet. -/
def envDup : RunEnv :=
  { serviceOk := true
    loadedIds := some ["A1", "A1"]
    sheetResp := some [["id"], ["C3"], ["C3"]]
    checkResp := fun _ => some (200, [])
    createResp := fun _ => some 201 }

theorem mem_setAdd {s : List String} {x y : String} :
    y ∈ setAdd s x ↔ y ∈ s ∨ y = x := by
  unfold setAdd
  split
  · next hx =>
    constructor
    · exact Or.inl
    · rintro (h | rfl)
      · exact h
      · exact hx
  · simp

theorem nodup_setAdd {s : List String} {x : String} (h : s.Nodup) :
    (setAdd s x).Nodup := by
  unfold setAdd
  split
  · exact h
  · next hx => simp [List.nodup_append, h, hx]

theorem mem_foldl_setAdd {l s : List String} {x : String} :
    x ∈ l.foldl setAdd s ↔ x ∈ s ∨ x ∈ l := by
  induction l generalizing s with
  | nil => simp
  | cons a t ih =>
    rw [List.foldl_cons, ih, mem_setAdd]
    simp only [List.mem_cons]
    tauto

theorem mem_pySet {l : List String} {x : String} : x ∈ pySet l ↔ x ∈ l := by
  simp [pySet, mem_foldl_setAdd]

theorem nodup_foldl_setAdd {l s : List String} (h : s.Nodup) :
    (l.foldl setAdd s).Nodup := by
  induction l generalizing s with
  | nil => exact h
  | cons a t ih => exact ih (nodup_setAdd h)

theorem nodup_pySet (l : List String) : (pySet l).Nodup :=
  nodup_foldl_setAdd List.nodup_nil

theorem reconStep_of_seen {env : RunEnv} {st : LoopState} {x : String}
    (h : x ∈ st.seen) : reconStep env st x = st := by
  simp [reconStep, h]

theorem mem_seen_reconStep {env : RunEnv} {st : LoopState} {x y : String} :
    y ∈ (reconStep env st x).seen ↔
      y ∈ st.seen ∨
        (y = x ∧ x ∉ st.seen ∧
          (check_existing_issues (env.checkResp x) x = true ∨
            create_github_issue (env.createResp x) = true)) := by
  by_cases hx : x ∈ st.seen
  · simp [reconStep_of_seen hx, hx]
  · by_cases hc : check_existing_issues (env.checkResp x) x = true
    · simp [reconStep, hx, hc, mem_setAdd]
    · by_cases hcr : create_github_issue (env.createResp x) = true
      · simp [reconStep, hx, hc, hcr, mem_setAdd]
      · simp [reconStep, hx, hc, hcr]

theorem checkCalls_reconStep_of_not_seen {env : RunEnv} {st : LoopState} {x : String}
    (hx : x ∉ st.seen) :
    (reconStep env st x).checkCalls = st.checkCalls ++ [x] := by
  unfold reconStep
  rw [if_neg hx]
  split
  · rfl
  · split <;> rfl

theorem seen_subset_reconStep (env : RunEnv) (st : LoopState) (x : String) :
    st.seen ⊆ (reconStep env st x).seen :=
  fun _ hy => mem_seen_reconStep.2 (Or.inl hy)

theorem seen_subset_foldl (env : RunEnv) (l : List String) (st : LoopState) :
    st.seen ⊆ (l.foldl (reconStep env) st).seen := by
  induction l generalizing st with
  | nil => exact fun _ h => h
  | cons a t ih =>
    exact (seen_subset_reconStep env st a).trans (ih (reconStep env st a))

theorem createCalls_subset_reconStep (env : RunEnv) (st : LoopState) (x : String) :
    st.createCalls ⊆ (reconStep env st x).createCalls := by
  unfold reconStep
  split
  · exact fun _ h => h
  · split
    · exact fun _ h => h
    · split <;> exact fun y hy => List.mem_append_left _ hy

theorem createCalls_subset_foldl (env : RunEnv) (l : List String) (st : LoopState) :
    st.createCalls ⊆ (l.foldl (reconStep env) st).createCalls := by
  induction l generalizing st with
  | nil => exact fun _ h => h
  | cons a t ih =>
    exact (createCalls_subset_reconStep env st a).trans (ih (reconStep env st a))

theorem checkCalls_subset_reconStep (env : RunEnv) (st : LoopState) (x : String) :
    st.checkCalls ⊆ (reconStep env st x).checkCalls := by
  unfold reconStep
  split
  · exact fun _ h => h
  · split
    · exact fun y hy => List.mem_append_left _ hy
    · split <;> exact fun y hy => List.mem_append_left _ hy

theorem checkCalls_subset_foldl (env : RunEnv) (l : List String) (st : LoopState) :
    st.checkCalls ⊆ (l.foldl (reconStep env) st).checkCalls := by
  induction l generalizing st with
  | nil => exact fun _ h => h
  | cons a t ih =>
    exact (checkCalls_subset_reconStep env st a).trans (ih (reconStep env st a))

theorem log_reconStep (env : RunEnv) (st : LoopState) (x : String) :
    ∃ t, (reconStep env st x).log = st.log ++ t := by
  unfold reconStep
  split
  · exact ⟨[], by simp⟩
  · split
    · exact ⟨_, rfl⟩
    · split <;> exact ⟨_, rfl⟩

theorem log_foldl (env : RunEnv) (l : List String) (st : LoopState) :
    ∃ t, (l.foldl (reconStep env) st).log = st.log ++ t := by
  induction l generalizing st with
  | nil => exact ⟨[], by simp⟩
  | cons a t ih =>
    obtain ⟨t1, h1⟩ := log_reconStep env st a
    obtain ⟨t2, h2⟩ := ih (reconStep env st a)
    exact ⟨t1 ++ t2, by rw [List.foldl_cons, h2, h1, List.append_assoc]⟩

theorem foldl_of_all_seen {env : RunEnv} {l : List String} {st : LoopState}
    (h : ∀ x ∈ l, x ∈ st.seen) : l.foldl (reconStep env) st = st := by
  induction l with
  | nil => rfl
  | cons a t ih =>
    rw [List.foldl_cons, reconStep_of_seen (h a (List.mem_cons_self a t))]
    exact ih fun x hx => h x (List.mem_cons_of_mem a hx)

theorem run_eq {env : RunEnv} (hsvc : env.serviceOk = true)
    (hne : get_sheet_data env.sheetResp ≠ []) :
    run env =
      { savedIds := some (finState env).seen, createdCount := (finState env).created,
        checkCalls := (finState env).checkCalls, createCalls := (finState env).createCalls,
        log := (finState env).log ++ [LogEvent.completeSummary (finState env).created] } := by
  simp only [run, hsvc, if_true, if_neg hne]
  rfl

theorem savedIds_eq_none_of_empty {env : RunEnv}
    (hempty : get_sheet_data env.sheetResp = []) : (run env).savedIds = none := by
  by_cases hsvc : env.serviceOk = true
  · simp [run, hsvc, hempty]
  · simp [run, hsvc]

theorem not_mem_seen_foldl {env : RunEnv} {x : String}
    (hchk : check_existing_issues (env.checkResp x) x = false)
    (hcr : create_github_issue (env.createResp x) = false)
    {l : List String} {st : LoopState} (hx : x ∉ st.seen) :
    x ∉ (l.foldl (reconStep env) st).seen := by
  induction l generalizing st with
  | nil => exact hx
  | cons a t ih =>
    rw [List.foldl_cons]
    refine ih ?_
    rw [mem_seen_reconStep]
    rintro (h | ⟨rfl, -, (h | h)⟩)
    · exact hx h
    · rw [hchk] at h
      cases h
    · rw [hcr] at h
      cases h

theorem mem_checkCalls_foldl {env : RunEnv} {x : String} {l : List String}
    (hx : x ∈ l) {st : LoopState} (hseen : x ∉ st.seen) :
    x ∈ (l.foldl (reconStep env) st).checkCalls := by
  induction l generalizing st with
  | nil => cases hx
  | cons a t ih =>
    rw [List.foldl_cons]
    by_cases hax : a = x
    · subst hax
      refine checkCalls_subset_foldl env t (reconStep env st a) ?_
      rw [checkCalls_reconStep_of_not_seen hseen]
      exact List.mem_append_right _ (List.mem_singleton_self a)
    · rcases List.mem_cons.1 hx with rfl | hxt
      · exact absurd rfl hax
      · refine ih hxt ?_
        rw [mem_seen_reconStep]
        rintro (h | ⟨rfl, -, -⟩)
        · exact hseen h
        · exact hax rfl

theorem mem_seen_foldl_of_createOk {env : RunEnv} {l : List String} {st : LoopState}
    (H : ∀ x ∈ (l.foldl (reconStep env) st).createCalls,
      create_github_issue (env.createResp x) = true) :
    ∀ x ∈ l, x ∈ (l.foldl (reconStep env) st).seen := by
  induction l generalizing st with
  | nil => intro x hx; cases hx
  | cons a t ih =>
    rw [List.foldl_cons] at H ⊢
    intro x hx
    rcases List.mem_cons.1 hx with rfl | hxt
    · by_cases hseen : x ∈ st.seen
      · exact seen_subset_foldl env t _ (seen_subset_reconStep env st x hseen)
      · by_cases hc : check_existing_issues (env.checkResp x) x = true
        · refine seen_subset_foldl env t _ ?_
          rw [mem_seen_reconStep]
          exact Or.inr ⟨rfl, hseen, Or.inl hc⟩
        · by_cases hcr : create_github_issue (env.createResp x) = true
          · refine seen_subset_foldl env t _ ?_
            rw [mem_seen_reconStep]
            exact Or.inr ⟨rfl, hseen, Or.inr hcr⟩
          · exfalso
            refine hcr (H x ?_)
            refine createCalls_subset_foldl env t _ ?_
            simp [reconStep, hseen, hc, hcr]
    · exact ih H x hxt

theorem count_createCalls_foldl {env : RunEnv} {x : String}
    (hcr : create_github_issue (env.createResp x) = true)
    {l : List String} {st : LoopState}
    (h1 : x ∈ st.createCalls → x ∈ st.seen)
    (h2 : st.createCalls.count x ≤ 1) :
    (l.foldl (reconStep env) st).createCalls.count x ≤ 1 := by
  induction l generalizing st with
  | nil => exact h2
  | cons a t ih =>
    rw [List.foldl_cons]
    by_cases hseen : a ∈ st.seen
    · rw [reconStep_of_seen hseen]
      exact ih h1 h2
    · by_cases hc : check_existing_issues (env.checkResp a) a = true
      · refine ih ?_ ?_
        · intro hmem
          simp only [reconStep, hseen, hc, if_neg hseen, if_true, if_pos hc] at hmem ⊢
          exact mem_setAdd.2 (Or.inl (h1 hmem))
        · simpa [reconStep, hseen, hc] using h2
      · by_cases hax : a = x
        · subst hax
          have hnotcc : a ∉ st.createCalls := fun hmem => hseen (h1 hmem)
          have hcount0 : st.createCalls.count a = 0 := List.count_eq_zero.2 hnotcc
          refine ih ?_ ?_
          · intro _
            simp only [reconStep, if_neg hseen, if_neg hc, hcr, if_true]
            exact mem_setAdd.2 (Or.inr rfl)
          · simp only [reconStep, if_neg hseen, if_neg hc, hcr, if_true]
            simp [List.count_append, hcount0]
        · refine ih ?_ ?_
          · intro hmem
            by_cases hcra : create_github_issue (env.createResp a) = true
            · simp only [reconStep, if_neg hseen, if_neg hc, hcra, if_true] at hmem ⊢
              rcases List.mem_append.1 hmem with h | h
              · exact mem_setAdd.2 (Or.inl (h1 h))
              · exact absurd (List.mem_singleton.1 h).symm hax
            · simp only [reconStep, if_neg hseen, if_neg hc, hcra, if_false,
                Bool.false_eq_true] at hmem ⊢
              rcases List.mem_append.1 hmem with h | h
              · exact h1 h
              · exact absurd (List.mem_singleton.1 h).symm hax
          · have hxa : ¬ (x = a) := fun h => hax h.symm
            by_cases hcra : create_github_issue (env.createResp a) = true
            · simp only [reconStep, if_neg hseen, if_neg hc, hcra, if_true]
              simpa [List.count_append, List.count_singleton, hxa] using h2
            · simp only [reconStep, if_neg hseen, if_neg hc, hcra, if_false,
                Bool.false_eq_true]
              simpa [List.count_append, List.count_singleton, hxa] using h2

theorem nodup_seen_reconStep {env : RunEnv} {st : LoopState} {x : String}
    (h : st.seen.Nodup) : ((reconStep env st x).seen).Nodup := by
  unfold reconStep
  split
  · exact h
  · split
    · exact nodup_setAdd h
    · split
      · exact nodup_setAdd h
      · exact h

theorem nodup_seen_foldl {env : RunEnv} {l : List String} {st : LoopState}
    (h : st.seen.Nodup) : ((l.foldl (reconStep env) st).seen).Nodup := by
  induction l generalizing st with
  | nil => exact h
  | cons a t ih => exact ih (nodup_seen_reconStep h)

theorem extract_ids_eq_filterMap (l : List (List String)) :
    extract_ids l = l.filterMap (fun row =>
      match row with
      | [] => none
      | cell :: _ => if pyStrip cell ≠ "" then some (pyStrip cell) else none) := by
  induction l with
  | nil => rfl
  | cons row rest ih =>
    cases row with
    | nil => simpa [extract_ids] using ih
    | cons cell cs =>
      by_cases h : pyStrip cell ≠ ""
      · simp [extract_ids, h, ih]
      · simp [extract_ids, h, ih]

/-- Claim C1 counterexample: in `envCreateFail` the identifier `"X"` is
fetched, absent from the loaded SeenSet, its existence check answers false and
its create returns HTTP 500 — yet the saved SeenSet is empty, so `"X"` was not
persisted as seen; the claim that the identifier is persisted "regardless of
the outcome of the create call" is false on the code. -/
theorem c1_counterexample :
    get_sheet_data envCreateFail.sheetResp = ["X"] ∧
    load_state envCreateFail.loadedIds = [] ∧
    check_existing_issues (envCreateFail.checkResp "X") "X" = false ∧
    envCreateFail.createResp "X" = some 500 ∧
    (run envCreateFail).savedIds = some [] := by
  decide

/-- Claim C1 (amended): for an unseen fetched identifier the reconcile step
checks the remote tracker; when an item exists it marks the identifier seen
without a create call, when the create succeeds it marks it seen, and when
the create fails it leaves the identifier out of the seen set. -/
theorem c1_persist_depends_on_outcome (env : RunEnv) (st : LoopState) (x : String)
    (hx : x ∉ st.seen) :
    (check_existing_issues (env.checkResp x) x = true →
      (reconStep env st x).seen = setAdd st.seen x ∧
      (reconStep env st x).createCalls = st.createCalls) ∧
    (check_existing_issues (env.checkResp x) x = false →
      (reconStep env st x).createCalls = st.createCalls ++ [x] ∧
      (create_github_issue (env.createResp x) = true →
        (reconStep env st x).seen = setAdd st.seen x) ∧
      (create_github_issue (env.createResp x) = false →
        (reconStep env st x).seen = st.seen)) := by
  constructor
  · intro hc
    constructor <;> simp [reconStep, hx, hc]
  · intro hc
    refine ⟨?_, ?_, ?_⟩
    · unfold reconStep
      rw [if_neg hx, if_neg (by simp [hc])]
      split <;> rfl
    · intro hcr
      simp [reconStep, hx, hc, hcr]
    · intro hcr
      simp [reconStep, hx, hc, hcr]

/-- Claim C1 witness: the amended behaviour at a concrete failing create. -/
theorem c1_witness :
    (reconStep envCreateFail ⟨[], 0, [], [], []⟩ "X").createCalls = [] ++ ["X"] ∧
    (reconStep envCreateFail ⟨[], 0, [], [], []⟩ "X").seen = [] := by
  have h := (c1_persist_depends_on_outcome envCreateFail ⟨[], 0, [], [], []⟩ "X"
    (by decide)).2 (by decide)
  exact ⟨h.1, h.2.2 (by decide)⟩

/-- Claim C2: an identifier `X` outside the loaded SeenSet whose existence
check answers false and whose create returns a non-201 status is absent from
the SeenSet saved at the end of the run, and on any later run loading that
saved set it is again processed (its existence check is issued again). -/
theorem c2_failed_create_retried (env : RunEnv) (X : String)
    (hsvc : env.serviceOk = true)
    (hX : X ∈ get_sheet_data env.sheetResp)
    (hld : X ∉ load_state env.loadedIds)
    (hchk : check_existing_issues (env.checkResp X) X = false)
    (s : Nat) (hcr : env.createResp X = some s) (hs : s ≠ 201) :
    ∀ saved, (run env).savedIds = some saved →
      X ∉ saved ∧
      ∀ env2 : RunEnv, env2.serviceOk = true → env2.loadedIds = some saved →
        X ∈ get_sheet_data env2.sheetResp → X ∈ (run env2).checkCalls := by
  have hne : get_sheet_data env.sheetResp ≠ [] := List.ne_nil_of_mem hX
  have hcrf : create_github_issue (env.createResp X) = false := by
    rw [hcr]
    simpa [create_github_issue] using hs
  have hXnotseen : X ∉ (finState env).seen := by
    unfold finState
    exact not_mem_seen_foldl hchk hcrf (by simp [initState, mem_pySet, hld])
  intro saved hsaved
  simp only [run_eq hsvc hne, Option.some.injEq] at hsaved
  subst hsaved
  refine ⟨hXnotseen, ?_⟩
  intro env2 hsvc2 hld2 hX2
  have hne2 : get_sheet_data env2.sheetResp ≠ [] := List.ne_nil_of_mem hX2
  simp only [run_eq hsvc2 hne2]
  unfold finState
  apply mem_checkCalls_foldl hX2
  simp [initState, mem_pySet, hld2, load_state]
  exact hXnotseen

/-- Claim C2 witness: `"X"` fails to be created in `envCreateFail`, is absent
from the saved (empty) SeenSet, and is checked again by the follow-up run. -/
theorem c2_witness :
    "X" ∉ ([] : List String) ∧ "X" ∈ (run envRetry).checkCalls := by
  have h := c2_failed_create_retried envCreateFail "X" rfl (by decide) (by decide)
    (by decide) 500 rfl (by decide) [] (by decide)
  exact ⟨h.1, h.2 envRetry rfl rfl (by decide)⟩

/-- Claim C3: when a completed run saved its state and every create it
attempted succeeded, a second run over the unchanged sheet that loads that
saved state issues no existence check and no create call, and reports zero
created issues. -/
theorem c3_idempotence (env1 env2 : RunEnv) (saved : List String)
    (h1 : env1.serviceOk = true)
    (hsv : (run env1).savedIds = some saved)
    (hok : ∀ x ∈ (run env1).createCalls,
      create_github_issue (env1.createResp x) = true)
    (h2 : env2.serviceOk = true)
    (hld : env2.loadedIds = some saved)
    (hsheet : env2.sheetResp = env1.sheetResp) :
    (run env2).createdCount = 0 ∧ (run env2).createCalls = [] ∧
    (run env2).checkCalls = [] := by
  have hne1 : get_sheet_data env1.sheetResp ≠ [] := by
    intro h
    rw [savedIds_eq_none_of_empty h] at hsv
    cases hsv
  simp only [run_eq h1 hne1, Option.some.injEq] at hsv hok
  have hall : ∀ x ∈ get_sheet_data env1.sheetResp, x ∈ (finState env1).seen := by
    unfold finState at hok ⊢
    exact mem_seen_foldl_of_createOk hok
  have hids2 : get_sheet_data env2.sheetResp = get_sheet_data env1.sheetResp := by
    rw [hsheet]
  have hne2 : get_sheet_data env2.sheetResp ≠ [] := by
    rw [hids2]
    exact hne1
  have hfold : finState env2 = initState env2 := by
    unfold finState
    apply foldl_of_all_seen
    intro x hx
    rw [hids2] at hx
    simp [initState, mem_pySet, hld, load_state]
    rw [← hsv]
    exact hall x hx
  simp [run_eq h2 hne2, hfold, initState]

/-- Claim C3 witness: the run after `envFirstRun` creates nothing. -/
theorem c3_witness :
    (run envSecondRun).createdCount = 0 ∧ (run envSecondRun).createCalls = [] ∧
    (run envSecondRun).checkCalls = [] :=
  c3_idempotence envFirstRun envSecondRun ["A1", "A2"] rfl (by decide) (by decide)
    rfl rfl rfl

/-- Claim C4: whenever a run writes a SeenSet, every identifier of the loaded
state is still in it — identifiers are only added during reconciliation,
never removed. -/
theorem c4_seen_set_monotone (env : RunEnv) (saved : List String)
    (hsv : (run env).savedIds = some saved) :
    ∀ x ∈ load_state env.loadedIds, x ∈ saved := by
  by_cases hsvc : env.serviceOk = true
  · by_cases hne : get_sheet_data env.sheetResp = []
    · rw [savedIds_eq_none_of_empty hne] at hsv
      cases hsv
    · simp only [run_eq hsvc hne, Option.some.injEq] at hsv
      subst hsv
      intro x hx
      unfold finState
      apply seen_subset_foldl
      simp [initState, mem_pySet]
      exact hx
  · simp [run, hsvc] at hsv

/-- Claim C4 witness: the pre-loaded `"B0"` survives the `envLoaded` run. -/
theorem c4_witness : "B0" ∈ ["B0", "A1"] :=
  c4_seen_set_monotone envLoaded ["B0", "A1"] (by decide) "B0" (by decide)

/-- Claim C5: fetch drops the first row unconditionally and from each later
row keeps the first cell trimmed, only when non-empty after trimming, in
sheet order; on the rows `["header"], ["P1"], [""], ["P2"]` it yields
exactly `["P1", "P2"]`. -/
theorem c5_fetch_header_skip :
    (∀ values : List (List String), get_sheet_data (some values) = fetchSpec values) ∧
    get_sheet_data (some [["header"], ["P1"], [""], ["P2"]]) = ["P1", "P2"] := by
  refine ⟨?_, by decide⟩
  intro values
  by_cases h : values = []
  · subst h
    rfl
  · show (if values = [] then [] else extract_ids (values.drop 1)) = fetchSpec values
    rw [if_neg h]
    exact extract_ids_eq_filterMap _

/-- Claim C6: on a 200 response the existence check reports "exists" exactly
when some returned issue title contains the identifier as a substring; in
particular a title `"Paper Review: P10"` makes the check for `"P1"` report
exists. -/
theorem c6_substring_check :
    (∀ (titles : List String) (paper_id : String),
      check_existing_issues (some (200, titles)) paper_id = true ↔
        ∃ t ∈ titles, paper_id.data <:+: t.data) ∧
    check_existing_issues (some (200, ["Paper Review: P10"])) "P1" = true := by
  refine ⟨?_, by decide⟩
  intro titles pid
  simp [check_existing_issues, occursIn, List.any_eq_true]

/-- Claim C7: a non-2xx list response, and a raised transport exception, make
the existence check return false instead of raising, and for an unseen
identifier whose check returned false the reconcile step issues a create
call. -/
theorem c7_check_fail_open :
    (∀ (paper_id : String) (status : Nat) (titles : List String),
      ¬ (200 ≤ status ∧ status ≤ 299) →
      check_existing_issues (some (status, titles)) paper_id = false) ∧
    (∀ paper_id : String, check_existing_issues none paper_id = false) ∧
    (∀ (env : RunEnv) (st : LoopState) (x : String),
      x ∉ st.seen → check_existing_issues (env.checkResp x) x = false →
      (reconStep env st x).createCalls = st.createCalls ++ [x]) := by
  refine ⟨?_, fun _ => rfl, ?_⟩
  · intro pid status titles h
    have hne : status ≠ 200 := by
      rintro rfl
      exact h ⟨le_refl 200, by norm_num⟩
    simp [check_existing_issues, hne]
  · intro env st x hx hc
    unfold reconStep
    rw [if_neg hx, if_neg (by simp [hc])]
    split <;> rfl

/-- Claim C7 witness: a 404 list response and an exception both answer false,
and the step then attempts creation. -/
theorem c7_witness :
    check_existing_issues (some (404, ["Paper Review: X"])) "X" = false ∧
    check_existing_issues none "X" = false ∧
    (reconStep envCreateFail ⟨[], 0, [], [], []⟩ "X").createCalls = [] ++ ["X"] :=
  ⟨c7_check_fail_open.1 "X" 404 ["Paper Review: X"] (by decide),
   c7_check_fail_open.2.1 "X",
   c7_check_fail_open.2.2 envCreateFail ⟨[], 0, [], [], []⟩ "X" (by decide) (by decide)⟩

/-- Claim C8: when fetch yields no identifiers the run ends with no existence
check, no create call, and no write to the state file. -/
theorem c8_empty_fetch_no_effects (env : RunEnv)
    (hsvc : env.serviceOk = true)
    (hempty : get_sheet_data env.sheetResp = []) :
    (run env).savedIds = none ∧ (run env).checkCalls = [] ∧
    (run env).createCalls = [] ∧ (run env).createdCount = 0 := by
  simp [run, hsvc, hempty]

/-- Claim C8 witness: a failed fetch leaves the state file untouched. -/
theorem c8_witness :
    (run envFetchFail).savedIds = none ∧ (run envFetchFail).checkCalls = [] ∧
    (run envFetchFail).createCalls = [] ∧ (run envFetchFail).createdCount = 0 :=
  c8_empty_fetch_no_effects envFetchFail rfl rfl

/-- Claim C9 counterexample: on the initialization-failure path the run logs
neither a found count nor a created count, refuting "a run summary containing
the count of identifiers found and the count of issues created is logged on
every execution path". -/
theorem c9_counterexample : ¬ summaryLogged (run envInitFail) := by
  have hlog : (run envInitFail).log = [LogEvent.startBanner, LogEvent.initFailed] := by
    decide
  rintro ⟨⟨n, hn⟩, -⟩
  rw [hlog] at hn
  simp at hn

/-- Claim C9 (amended): the found count and the created count are logged
exactly on the full path (service initialized and non-empty fetch); the two
early-abort paths log only a diagnostic event and no counts. -/
theorem c9_summary_only_on_full_path (env : RunEnv) :
    (env.serviceOk = true → get_sheet_data env.sheetResp ≠ [] →
      LogEvent.foundCount (get_sheet_data env.sheetResp).length ∈ (run env).log ∧
      LogEvent.completeSummary (run env).createdCount ∈ (run env).log) ∧
    (env.serviceOk = false → ¬ summaryLogged (run env)) ∧
    (get_sheet_data env.sheetResp = [] → ¬ summaryLogged (run env)) := by
  refine ⟨?_, ?_, ?_⟩
  · intro hsvc hne
    simp only [run_eq hsvc hne]
    constructor
    · apply List.mem_append_left
      unfold finState
      obtain ⟨t, ht⟩ := log_foldl env (get_sheet_data env.sheetResp) (initState env)
      rw [ht]
      apply List.mem_append_left
      simp [initState]
    · exact List.mem_append_right _ (List.mem_singleton_self _)
  · intro hsvc
    rintro ⟨⟨n, hn⟩, -⟩
    simp [run, hsvc] at hn
  · intro hempty
    rintro ⟨⟨n, hn⟩, -⟩
    by_cases hsvc : env.serviceOk = true
    · simp [run, hsvc, hempty] at hn
    · simp [run, hsvc] at hn

/-- Claim C9 witness: the full path logs both counts; a failed fetch logs
neither. -/
theorem c9_witness :
    (LogEvent.foundCount (get_sheet_data envFirstRun.sheetResp).length ∈
      (run envFirstRun).log ∧
     LogEvent.completeSummary (run envFirstRun).createdCount ∈ (run envFirstRun).log) ∧
    ¬ summaryLogged (run envFetchFail) :=
  ⟨(c9_summary_only_on_full_path envFirstRun).1 rfl (by decide),
   (c9_summary_only_on_full_path envFetchFail).2.2 rfl⟩

/-- Claim C10: an identifier already in the in-memory seen set is skipped with
no remote call; when an identifier's create succeeds it is create-called at
most once in the whole run; and any saved SeenSet is duplicate-free, whatever
duplicates the loaded file or the fetched sequence contained. -/
theorem c10_per_run_uniqueness (env : RunEnv) :
    (∀ (st : LoopState) (x : String), x ∈ st.seen → reconStep env st x = st) ∧
    (∀ x : String, create_github_issue (env.createResp x) = true →
      (run env).createCalls.count x ≤ 1) ∧
    (∀ saved, (run env).savedIds = some saved → saved.Nodup) := by
  refine ⟨fun st x h => reconStep_of_seen h, ?_, ?_⟩
  · intro x hcr
    by_cases hsvc : env.serviceOk = true
    · by_cases hne : get_sheet_data env.sheetResp = []
      · simp [run, hsvc, hne]
      · simp only [run_eq hsvc hne]
        unfold finState
        exact count_createCalls_foldl hcr (fun h => absurd h (by simp [initState]))
          (by simp [initState])
    · simp [run, hsvc]
  · intro saved hsv
    by_cases hsvc : env.serviceOk = true
    · by_cases hne : get_sheet_data env.sheetResp = []
      · rw [savedIds_eq_none_of_empty hne] at hsv
        cases hsv
      · simp only [run_eq hsvc hne, Option.some.injEq] at hsv
        subst hsv
        unfold finState
        exact nodup_seen_foldl
          (by simpa [initState] using nodup_pySet (load_state env.loadedIds))
    · simp [run, hsvc] at hsv

/-- Claim C10 witness: in `envDup` the duplicated `"C3"` is created once and
the saved set `["A1", "C3"]` is duplicate-free, despite duplicates in both
the loaded file and the sheet. -/
theorem c10_witness :
    reconStep envDup ⟨["A1"], 0, [], [], []⟩ "A1" = ⟨["A1"], 0, [], [], []⟩ ∧
    (run envDup).createCalls.count "C3" ≤ 1 ∧
    (["A1", "C3"] : List String).Nodup :=
  ⟨(c10_per_run_uniqueness envDup).1 ⟨["A1"], 0, [], [], []⟩ "A1" (by decide),
   (c10_per_run_uniqueness envDup).2.1 "C3" (by decide),
   (c10_per_run_uniqueness envDup).2.2 ["A1", "C3"] (by decide)⟩

end SheetMonitor
